import Mathlib

/-!
Verification of the USB device protocol core of mbed-os against its
natural-language specification.

The repository sources provide the hardware-abstraction contract
(`platform/USBPhy.h`) and the greentea device-side tests
(`TESTS/usb_device/basic/main.cpp`).  The control-transfer and
endpoint-lifecycle state machine itself (the USBDevice class) is not in
the provided sources, so it is modelled from the specification where a
claim needs it; definitions taken directly from the sources say so in
their doc comments.
-/

namespace USBCore

/-- Modelled from the spec: the Device State of §3 of the specification
(the USBDevice lifecycle states; the implementation is not among the
provided sources).  One of Unpowered, Powered-Detached, Default
(post-reset, address 0), Addressed, Configured. -/
inductive DeviceState where
  | Unpowered
  | PoweredDetached
  | Default
  | Addressed
  | Configured
  deriving DecidableEq, Repr

/-- Modelled from the spec: a logical Endpoint Descriptor (§3): identity
(number, as an endpoint address with direction bit), enabled via
membership in the device's endpoint list, plus the per-endpoint HALT
feature flag. -/
structure Endpoint where
  num : Nat
  halted : Bool
  deriving DecidableEq, Repr

/-- Modelled from the spec: the mutable USB device state owned by the
Device Lifecycle Controller (§3, §4.5): top-level state, bus address,
the set of live endpoint descriptors, the single selected configuration
index (0 = unconfigured), per-interface alternate settings, and the
device-level remote-wakeup feature flag.  The USBDevice implementation
holding this state is not among the provided sources. -/
structure Device where
  state : DeviceState
  address : Nat
  endpoints : List Endpoint
  config : Nat
  altSetting : Nat → Nat
  remoteWakeup : Bool

/-- Modelled from the spec: bus reset handling (§3, §4.4, §4.5 and the
USBPhy.h defined behavior "On USB reset all endpoints are removed except
for endpoint 0").  Reset returns the device to Default with address 0,
removes every non-zero endpoint, clears the HALT flag of the endpoints
that remain (endpoint 0), clears remote wakeup and deselects the
configuration. -/
def Device.busReset (d : Device) : Device :=
  { state := DeviceState.Default
    address := 0
    endpoints := (d.endpoints.filter (fun e => e.num = 0)).map
      (fun e => { e with halted := false })
    config := 0
    altSetting := fun _ => 0
    remoteWakeup := false }

/-- Claim C1: for every prior device state (Addressed or Configured), a
bus reset returns the device to Default with address 0, removes every
non-zero endpoint while endpoint 0 is preserved, and clears all feature
flags: every surviving endpoint has HALT cleared and the device
remote-wakeup flag is cleared. -/
theorem busReset_returns_default (d : Device)
    (hprior : d.state = DeviceState.Addressed ∨ d.state = DeviceState.Configured) :
    (d.busReset).state = DeviceState.Default ∧
    (d.busReset).address = 0 ∧
    (∀ e ∈ (d.busReset).endpoints, e.num = 0) ∧
    (∀ e ∈ d.endpoints, e.num = 0 →
      ∃ e' ∈ (d.busReset).endpoints, e'.num = 0 ∧ e'.halted = false) ∧
    (∀ e ∈ (d.busReset).endpoints, e.halted = false) ∧
    (d.busReset).remoteWakeup = false := by
  refine ⟨rfl, rfl, ?_, ?_, ?_, rfl⟩
  · intro e he
    simp only [Device.busReset, List.mem_map, List.mem_filter] at he
    obtain ⟨a, ⟨_, ha⟩, rfl⟩ := he
    simpa using ha
  · intro e he hnum
    refine ⟨{ e with halted := false }, ?_, hnum, rfl⟩
    simp only [Device.busReset, List.mem_map, List.mem_filter]
    exact ⟨e, ⟨he, by simpa using hnum⟩, rfl⟩
  · intro e he
    simp only [Device.busReset, List.mem_map] at he
    obtain ⟨a, _, rfl⟩ := he
    rfl

/-- Closed instance of C1: a Configured device with a halted bulk
endpoint 0x81 and endpoint 0, remote wakeup set, satisfies the reset
postconditions. -/
theorem busReset_returns_default_witness :
    let d : Device :=
      { state := DeviceState.Configured
        address := 5
        endpoints := [⟨0, false⟩, ⟨0x81, true⟩]
        config := 1
        altSetting := fun _ => 0
        remoteWakeup := true }
    (d.state = DeviceState.Addressed ∨ d.state = DeviceState.Configured) ∧
    ((d.busReset).state = DeviceState.Default ∧
     (d.busReset).address = 0 ∧
     (∀ e ∈ (d.busReset).endpoints, e.num = 0) ∧
     (∀ e ∈ d.endpoints, e.num = 0 →
       ∃ e' ∈ (d.busReset).endpoints, e'.num = 0 ∧ e'.halted = false) ∧
     (∀ e ∈ (d.busReset).endpoints, e.halted = false) ∧
     (d.busReset).remoteWakeup = false) :=
  ⟨Or.inr rfl, busReset_returns_default _ (Or.inr rfl)⟩

/-- Modelled from the spec: the request-shape fields of a SETUP packet
that drive the control transfer stages (§4.3, glossary): transfer
direction for the data stage and the declared wLength. -/
structure SetupPacket where
  dirIn : Bool
  wLength : Nat
  deriving DecidableEq, Repr

/-- Modelled from the spec: the stages of the Control Transfer State
Machine (§4.3): Idle, SetupReceived, DataOut, DataIn, NoData,
StatusPending.  The data stages carry the in-flight context (owning
request and bytes transferred so far, §3). -/
inductive CtrlStage where
  | Idle
  | SetupReceived (p : SetupPacket)
  | DataOut (p : SetupPacket) (transferred : Nat)
  | DataIn (p : SetupPacket) (transferred : Nat)
  | NoData (p : SetupPacket)
  | StatusPending (p : SetupPacket)
  deriving DecidableEq, Repr

/-- Modelled from the spec: the Control Transfer State Machine state
(§4.3), with the endpoint-0 max packet size and an instrumentation
counter of completed control transfers. -/
structure CtrlMachine where
  stage : CtrlStage
  maxPacket : Nat
  completed : Nat
  deriving DecidableEq, Repr

/-- Modelled from the spec: events consumed by the Control Transfer
State Machine (§4.2, §4.3): `ep0_setup` reception of a SETUP packet,
the internal dispatch of the received request, a data-stage chunk of
`n` bytes moved by `ep0_read`/`ep0_write`, the advance of a no-data
request to its status stage, and completion of the status handshake. -/
inductive CtrlEvent where
  | setup (p : SetupPacket)
  | dispatch
  | dataChunk (n : Nat)
  | advance
  | statusDone
  deriving DecidableEq, Repr

/-- Modelled from the spec: one transition of the Control Transfer
State Machine (§4.3).  `ep0_setup` moves ANY state to SetupReceived,
discarding the in-flight context; dispatch selects the data stage from
the request; a data chunk advances the byte count and a short packet or
reaching wLength ends the data stage; the status handshake returns to
Idle and counts one completed transfer. -/
def ctrlStep (m : CtrlMachine) : CtrlEvent → CtrlMachine
  | CtrlEvent.setup p => { m with stage := CtrlStage.SetupReceived p }
  | CtrlEvent.dispatch =>
      match m.stage with
      | CtrlStage.SetupReceived p =>
          if p.wLength = 0 then { m with stage := CtrlStage.NoData p }
          else if p.dirIn then { m with stage := CtrlStage.DataIn p 0 }
          else { m with stage := CtrlStage.DataOut p 0 }
      | _ => m
  | CtrlEvent.dataChunk n =>
      match m.stage with
      | CtrlStage.DataIn p t =>
          if n < m.maxPacket ∨ p.wLength ≤ t + n then
            { m with stage := CtrlStage.StatusPending p }
          else { m with stage := CtrlStage.DataIn p (t + n) }
      | CtrlStage.DataOut p t =>
          if n < m.maxPacket ∨ p.wLength ≤ t + n then
            { m with stage := CtrlStage.StatusPending p }
          else { m with stage := CtrlStage.DataOut p (t + n) }
      | _ => m
  | CtrlEvent.advance =>
      match m.stage with
      | CtrlStage.NoData p => { m with stage := CtrlStage.StatusPending p }
      | _ => m
  | CtrlEvent.statusDone =>
      match m.stage with
      | CtrlStage.StatusPending _ =>
          { m with stage := CtrlStage.Idle, completed := m.completed + 1 }
      | _ => m

/-- Run the Control Transfer State Machine over a list of events. -/
def ctrlRun (m : CtrlMachine) (es : List CtrlEvent) : CtrlMachine :=
  es.foldl ctrlStep m

/-- The data-stage event sequence that moves `L` remaining bytes in
max-packet-size chunks (§4.3: the data stage chunks the transfer
through ep0_read/ep0_write in max-packet-size units). -/
def dataEvents (L mp : Nat) : List CtrlEvent :=
  if L ≤ mp ∨ mp = 0 then [CtrlEvent.dataChunk mp]
  else CtrlEvent.dataChunk mp :: dataEvents (L - mp) mp
termination_by L
decreasing_by omega

/-- The event sequence that carries one dispatched request through its
data stage (if any) and status stage to completion. -/
def completionSeq (p : SetupPacket) (mp : Nat) : List CtrlEvent :=
  CtrlEvent.dispatch ::
    ((if p.wLength = 0 then [CtrlEvent.advance] else dataEvents p.wLength mp) ++
      [CtrlEvent.statusDone])

lemma ctrlRun_append (m : CtrlMachine) (xs ys : List CtrlEvent) :
    ctrlRun m (xs ++ ys) = ctrlRun (ctrlRun m xs) ys :=
  List.foldl_append ..

lemma ctrlRun_setups (m : CtrlMachine) (p : SetupPacket) :
    ∀ n, 0 < n →
      ctrlRun m (List.replicate n (CtrlEvent.setup p)) =
        { m with stage := CtrlStage.SetupReceived p }
  | 1, _ => rfl
  | n + 2, _ => by
      have h := ctrlRun_setups { m with stage := CtrlStage.SetupReceived p } p
        (n + 1) (Nat.succ_pos n)
      simpa [List.replicate_succ, ctrlRun, ctrlStep] using h

lemma ctrlRun_dataIn (mp : Nat) (hmp : 0 < mp) :
    ∀ L p t c, 0 < L → p.wLength = t + L →
      ctrlRun ⟨CtrlStage.DataIn p t, mp, c⟩ (dataEvents L mp) =
        ⟨CtrlStage.StatusPending p, mp, c⟩ := by
  intro L
  induction L using Nat.strong_induction_on with
  | _ L ih =>
    intro p t c hL hw
    rw [dataEvents]
    by_cases h : L ≤ mp ∨ mp = 0
    · have hLmp : L ≤ mp := by omega
      have hcond : mp < mp ∨ p.wLength ≤ t + mp := Or.inr (by omega)
      simp only [if_pos h, ctrlRun, List.foldl_cons, List.foldl_nil, ctrlStep,
        if_pos hcond]
    · push_neg at h
      obtain ⟨hmpL, _⟩ := h
      have hcond : ¬(mp < mp ∨ p.wLength ≤ t + mp) := by omega
      have hstep : ctrlStep ⟨CtrlStage.DataIn p t, mp, c⟩ (CtrlEvent.dataChunk mp) =
          ⟨CtrlStage.DataIn p (t + mp), mp, c⟩ := by
        simp only [ctrlStep, if_neg hcond]
      rw [if_neg (by omega : ¬(L ≤ mp ∨ mp = 0))]
      show ctrlRun _ (CtrlEvent.dataChunk mp :: dataEvents (L - mp) mp) = _
      rw [show (CtrlEvent.dataChunk mp :: dataEvents (L - mp) mp) =
        [CtrlEvent.dataChunk mp] ++ dataEvents (L - mp) mp from rfl,
        ctrlRun_append]
      have h1 : ctrlRun ⟨CtrlStage.DataIn p t, mp, c⟩ [CtrlEvent.dataChunk mp] =
          ⟨CtrlStage.DataIn p (t + mp), mp, c⟩ := hstep
      rw [h1]
      exact ih (L - mp) (by omega) p (t + mp) c (by omega) (by omega)

lemma ctrlRun_dataOut (mp : Nat) (hmp : 0 < mp) :
    ∀ L p t c, 0 < L → p.wLength = t + L →
      ctrlRun ⟨CtrlStage.DataOut p t, mp, c⟩ (dataEvents L mp) =
        ⟨CtrlStage.StatusPending p, mp, c⟩ := by
  intro L
  induction L using Nat.strong_induction_on with
  | _ L ih =>
    intro p t c hL hw
    rw [dataEvents]
    by_cases h : L ≤ mp ∨ mp = 0
    · have hLmp : L ≤ mp := by omega
      have hcond : mp < mp ∨ p.wLength ≤ t + mp := Or.inr (by omega)
      simp only [if_pos h, ctrlRun, List.foldl_cons, List.foldl_nil, ctrlStep,
        if_pos hcond]
    · push_neg at h
      obtain ⟨hmpL, _⟩ := h
      have hcond : ¬(mp < mp ∨ p.wLength ≤ t + mp) := by omega
      have hstep : ctrlStep ⟨CtrlStage.DataOut p t, mp, c⟩ (CtrlEvent.dataChunk mp) =
          ⟨CtrlStage.DataOut p (t + mp), mp, c⟩ := by
        simp only [ctrlStep, if_neg hcond]
      rw [if_neg (by omega : ¬(L ≤ mp ∨ mp = 0))]
      show ctrlRun _ (CtrlEvent.dataChunk mp :: dataEvents (L - mp) mp) = _
      rw [show (CtrlEvent.dataChunk mp :: dataEvents (L - mp) mp) =
        [CtrlEvent.dataChunk mp] ++ dataEvents (L - mp) mp from rfl,
        ctrlRun_append]
      have h1 : ctrlRun ⟨CtrlStage.DataOut p t, mp, c⟩ [CtrlEvent.dataChunk mp] =
          ⟨CtrlStage.DataOut p (t + mp), mp, c⟩ := hstep
      rw [h1]
      exact ih (L - mp) (by omega) p (t + mp) c (by omega) (by omega)

lemma ctrlRun_completionSeq (p : SetupPacket) (mp c : Nat) (hmp : 0 < mp) :
    ctrlRun ⟨CtrlStage.SetupReceived p, mp, c⟩ (completionSeq p mp) =
      ⟨CtrlStage.Idle, mp, c + 1⟩ := by
  unfold completionSeq
  by_cases h0 : p.wLength = 0
  · simp [h0, ctrlRun, ctrlStep]
  · by_cases hd : p.dirIn
    · have hdisp : ctrlStep ⟨CtrlStage.SetupReceived p, mp, c⟩ CtrlEvent.dispatch =
          ⟨CtrlStage.DataIn p 0, mp, c⟩ := by
        simp [ctrlStep, h0, hd]
      rw [show (CtrlEvent.dispatch ::
            ((if p.wLength = 0 then [CtrlEvent.advance] else dataEvents p.wLength mp) ++
              [CtrlEvent.statusDone])) =
          [CtrlEvent.dispatch] ++
            ((if p.wLength = 0 then [CtrlEvent.advance] else dataEvents p.wLength mp) ++
              [CtrlEvent.statusDone]) from rfl,
        ctrlRun_append, ctrlRun_append]
      have h1 : ctrlRun ⟨CtrlStage.SetupReceived p, mp, c⟩ [CtrlEvent.dispatch] =
          ⟨CtrlStage.DataIn p 0, mp, c⟩ := hdisp
      rw [h1, if_neg h0,
        ctrlRun_dataIn mp hmp p.wLength p 0 c (Nat.pos_of_ne_zero h0) (by omega)]
      simp [ctrlRun, ctrlStep]
    · have hdisp : ctrlStep ⟨CtrlStage.SetupReceived p, mp, c⟩ CtrlEvent.dispatch =
          ⟨CtrlStage.DataOut p 0, mp, c⟩ := by
        simp [ctrlStep, h0, hd]
      rw [show (CtrlEvent.dispatch ::
            ((if p.wLength = 0 then [CtrlEvent.advance] else dataEvents p.wLength mp) ++
              [CtrlEvent.statusDone])) =
          [CtrlEvent.dispatch] ++
            ((if p.wLength = 0 then [CtrlEvent.advance] else dataEvents p.wLength mp) ++
              [CtrlEvent.statusDone]) from rfl,
        ctrlRun_append, ctrlRun_append]
      have h1 : ctrlRun ⟨CtrlStage.SetupReceived p, mp, c⟩ [CtrlEvent.dispatch] =
          ⟨CtrlStage.DataOut p 0, mp, c⟩ := hdisp
      rw [h1, if_neg h0,
        ctrlRun_dataOut mp hmp p.wLength p 0 c (Nat.pos_of_ne_zero h0) (by omega)]
      simp [ctrlRun, ctrlStep]

/-- Claim C2: from every state, reception of a SETUP packet discards
the in-flight context and moves the Control Transfer State Machine to
SetupReceived; hence n ≥ 3 SETUP packets of the same request in rapid
succession, followed by the processing of the request, complete exactly
one transfer, not n. -/
theorem ep0_setup_single_completion (m : CtrlMachine) (p : SetupPacket)
    (n : Nat) (h3 : 3 ≤ n) (hmp : 0 < m.maxPacket) :
    (∀ m' : CtrlMachine, (ctrlStep m' (CtrlEvent.setup p)).stage =
      CtrlStage.SetupReceived p) ∧
    (ctrlRun m (List.replicate n (CtrlEvent.setup p))).stage =
      CtrlStage.SetupReceived p ∧
    (ctrlRun m (List.replicate n (CtrlEvent.setup p) ++
        completionSeq p m.maxPacket)).completed = m.completed + 1 := by
  refine ⟨fun _ => rfl, ?_, ?_⟩
  · rw [ctrlRun_setups m p n (by omega)]
  · rw [ctrlRun_append, ctrlRun_setups m p n (by omega)]
    have h := ctrlRun_completionSeq p m.maxPacket m.completed hmp
    have hm : ({ m with stage := CtrlStage.SetupReceived p } : CtrlMachine) =
        ⟨CtrlStage.SetupReceived p, m.maxPacket, m.completed⟩ := rfl
    rw [hm, h]

/-- Closed instance of C2: three duplicate SETUPs of an IN request of
5 bytes with max packet 2, then the processing of the request, yield
exactly one completed transfer from the idle machine. -/
theorem ep0_setup_single_completion_witness :
    let m : CtrlMachine := ⟨CtrlStage.Idle, 2, 0⟩
    let p : SetupPacket := ⟨true, 5⟩
    (3 ≤ 3 ∧ 0 < m.maxPacket) ∧
    (ctrlRun m (List.replicate 3 (CtrlEvent.setup p) ++
        completionSeq p m.maxPacket)).completed = m.completed + 1 :=
  ⟨⟨le_refl 3, Nat.succ_pos 1⟩,
    (ep0_setup_single_completion ⟨CtrlStage.Idle, 2, 0⟩ ⟨true, 5⟩ 3
      (le_refl 3) (Nat.succ_pos 1)).2.2⟩

/-- Standard USB descriptor type code for a device descriptor. -/
def DEVICE_DESCRIPTOR : Nat := 1

/-- Standard USB descriptor type code for a configuration descriptor. -/
def CONFIGURATION_DESCRIPTOR : Nat := 2

/-- Standard USB descriptor type code for a string descriptor. -/
def STRING_DESCRIPTOR : Nat := 3

/-- Standard USB descriptor type code for an interface descriptor. -/
def INTERFACE_DESCRIPTOR : Nat := 4

/-- Standard USB descriptor type code for an endpoint descriptor. -/
def ENDPOINT_DESCRIPTOR : Nat := 5

/-- Modelled from the spec: the immutable declared descriptor set of the
device (§3, §4.3): the declared configuration values, the interface
numbers, the declared alt-settings per interface, the non-zero endpoints
enabled by each configuration and by each interface/alt-setting pair,
and the self-powered attribute reported in the device status. -/
structure DeviceDecl where
  configs : List Nat
  interfaces : List Nat
  altsOf : Nat → List Nat
  epsOfConfig : Nat → List Nat
  epsOfIntf : Nat → Nat → List Nat
  selfPowered : Bool

/-- Well-formedness of a declared descriptor set: configuration value 0
means unconfigured and is never a declared configuration. -/
def DeviceDecl.wf (decl : DeviceDecl) : Prop :=
  0 ∉ decl.configs

/-- The recipient field of a standard request (§9 of the USB spec):
device, interface or endpoint. -/
inductive Recipient where
  | device
  | interface (i : Nat)
  | endpoint (e : Nat)
  deriving DecidableEq, Repr

/-- The standard requests handled internally by the Control Transfer
State Machine (§4.3). -/
inductive StdRequest where
  | getStatus (r : Recipient)
  | clearFeature (r : Recipient)
  | setFeature (r : Recipient)
  | setAddress (a : Nat)
  | getDescriptor (descType : Nat)
  | setDescriptor (descType : Nat)
  | getConfiguration
  | setConfiguration (c : Nat)
  | getInterface (i : Nat)
  | setInterface (i : Nat) (alt : Nat)
  deriving DecidableEq, Repr

/-- Outcome of a control request: a successful reply with data, or a
protocol stall of endpoint 0. -/
inductive CtrlResult where
  | ok (data : List Nat)
  | stall
  deriving DecidableEq, Repr

/-- Look up the live endpoint descriptor with the given endpoint
address. -/
def Device.findEp (d : Device) (e : Nat) : Option Endpoint :=
  d.endpoints.find? (fun ep => ep.num == e)

/-- Set or clear the HALT feature flag of the endpoint with address
`e`. -/
def Device.setHalt (d : Device) (e : Nat) (b : Bool) : Device :=
  { d with
      endpoints := d.endpoints.map
        (fun ep => if ep.num == e then { ep with halted := b } else ep) }

/-- The live endpoint-0 descriptors with HALT cleared; endpoint 0 is
permanent and survives configuration changes. -/
def Device.ep0Only (d : Device) : List Endpoint :=
  (d.endpoints.filter (fun e => e.num == 0)).map (fun e => { e with halted := false })

/-- Modelled from the spec: the standard-request handler of the Control
Transfer State Machine (§4.3, the USBDevice implementation is not among
the provided sources).  GetStatus reports the remote-wakeup /
self-powered bits for the device, always 0 for an interface, and the
HALT flag for an endpoint; Set/ClearFeature toggle remote wakeup or an
endpoint HALT; GetDescriptor serves only device, configuration and
string descriptors and stalls direct interface/endpoint descriptor
requests; SetDescriptor always stalls; Set/GetConfiguration and
Set/GetInterface manage the configuration and alt-setting selection,
stalling undeclared values and leaving the device unchanged. -/
def handleStd (decl : DeviceDecl) (d : Device) : StdRequest → Device × CtrlResult
  | StdRequest.getStatus Recipient.device =>
      (d, CtrlResult.ok [(if decl.selfPowered then 1 else 0) +
        (if d.remoteWakeup then 2 else 0)])
  | StdRequest.getStatus (Recipient.interface i) =>
      if d.state = DeviceState.Configured ∧ i ∈ decl.interfaces then
        (d, CtrlResult.ok [0])
      else (d, CtrlResult.stall)
  | StdRequest.getStatus (Recipient.endpoint e) =>
      match d.findEp e with
      | some ep => (d, CtrlResult.ok [if ep.halted then 1 else 0])
      | none => (d, CtrlResult.stall)
  | StdRequest.setFeature Recipient.device =>
      ({ d with remoteWakeup := true }, CtrlResult.ok [])
  | StdRequest.setFeature (Recipient.interface _) => (d, CtrlResult.stall)
  | StdRequest.setFeature (Recipient.endpoint e) =>
      if (d.findEp e).isSome then (d.setHalt e true, CtrlResult.ok [])
      else (d, CtrlResult.stall)
  | StdRequest.clearFeature Recipient.device =>
      ({ d with remoteWakeup := false }, CtrlResult.ok [])
  | StdRequest.clearFeature (Recipient.interface _) => (d, CtrlResult.stall)
  | StdRequest.clearFeature (Recipient.endpoint e) =>
      if (d.findEp e).isSome then (d.setHalt e false, CtrlResult.ok [])
      else (d, CtrlResult.stall)
  | StdRequest.setAddress a =>
      if d.state = DeviceState.Configured then (d, CtrlResult.stall)
      else ({ d with
                address := a,
                state := if a = 0 then DeviceState.Default else DeviceState.Addressed },
            CtrlResult.ok [])
  | StdRequest.getDescriptor t =>
      if t = DEVICE_DESCRIPTOR ∨ t = CONFIGURATION_DESCRIPTOR ∨ t = STRING_DESCRIPTOR then
        (d, CtrlResult.ok [t])
      else (d, CtrlResult.stall)
  | StdRequest.setDescriptor _ => (d, CtrlResult.stall)
  | StdRequest.getConfiguration => (d, CtrlResult.ok [d.config])
  | StdRequest.setConfiguration c =>
      if c = 0 then
        ({ d with
            state := if d.state = DeviceState.Configured then DeviceState.Addressed
              else d.state,
            config := 0,
            endpoints := d.ep0Only,
            altSetting := fun _ => 0 }, CtrlResult.ok [])
      else if c ∈ decl.configs then
        ({ d with
            state := DeviceState.Configured,
            config := c,
            endpoints := d.ep0Only ++ (decl.epsOfConfig c).map (fun n => ⟨n, false⟩),
            altSetting := fun _ => 0 }, CtrlResult.ok [])
      else (d, CtrlResult.stall)
  | StdRequest.getInterface i =>
      if d.state = DeviceState.Configured ∧ i ∈ decl.interfaces then
        (d, CtrlResult.ok [d.altSetting i])
      else (d, CtrlResult.stall)
  | StdRequest.setInterface i a =>
      if d.state = DeviceState.Configured ∧ i ∈ decl.interfaces ∧ a ∈ decl.altsOf i then
        ({ d with
            altSetting := fun j => if j = i then a else d.altSetting j,
            endpoints :=
              (d.endpoints.filter
                (fun e => decide (e.num ∉ decl.epsOfIntf i (d.altSetting i)))) ++
              (decl.epsOfIntf i a).map (fun n => ⟨n, false⟩) }, CtrlResult.ok [])
      else (d, CtrlResult.stall)

/-- Claim C8: SetDescriptor stalls unconditionally for every descriptor
type; GetDescriptor stalls on a direct request for an interface or
endpoint descriptor; device and configuration descriptors are
retrievable. -/
theorem setDescriptor_stalls (decl : DeviceDecl) (d : Device) (t : Nat) :
    (handleStd decl d (StdRequest.setDescriptor t)).2 = CtrlResult.stall ∧
    (handleStd decl d (StdRequest.getDescriptor INTERFACE_DESCRIPTOR)).2 =
      CtrlResult.stall ∧
    (handleStd decl d (StdRequest.getDescriptor ENDPOINT_DESCRIPTOR)).2 =
      CtrlResult.stall ∧
    (handleStd decl d (StdRequest.getDescriptor DEVICE_DESCRIPTOR)).2 =
      CtrlResult.ok [DEVICE_DESCRIPTOR] ∧
    (handleStd decl d (StdRequest.getDescriptor CONFIGURATION_DESCRIPTOR)).2 =
      CtrlResult.ok [CONFIGURATION_DESCRIPTOR] := by
  refine ⟨rfl, ?_, ?_, ?_, ?_⟩ <;>
    simp [handleStd, INTERFACE_DESCRIPTOR, ENDPOINT_DESCRIPTOR, DEVICE_DESCRIPTOR,
      CONFIGURATION_DESCRIPTOR, STRING_DESCRIPTOR]

/-- Modelled from the spec: the selected configuration index is 0
exactly while the device state is not Configured (§4.3: GetConfiguration
returns 0 exactly while device state is not Configured). -/
def configInvariant (d : Device) : Prop :=
  d.config = 0 ↔ d.state ≠ DeviceState.Configured

/-- Modelled from the spec: device construction/initialization (§4.3,
§6; the USBDevice implementation is not among the provided sources).
With `preselect` the device pre-selects a default configuration of 1
during initialization, as the device under test expects; otherwise it
comes up in the Default state with no configuration selected. -/
def initUSBDevice (preselect : Bool) : Device :=
  if preselect then
    { state := DeviceState.Configured
      address := 0
      endpoints := [⟨0, false⟩]
      config := 1
      altSetting := fun _ => 0
      remoteWakeup := false }
  else
    { state := DeviceState.Default
      address := 0
      endpoints := [⟨0, false⟩]
      config := 0
      altSetting := fun _ => 0
      remoteWakeup := false }

lemma handleStd_fst_configInvariant (decl : DeviceDecl) (hwf : decl.wf)
    (d : Device) (req : StdRequest) (hinv : configInvariant d) :
    configInvariant (handleStd decl d req).1 := by
  cases req with
  | getStatus r =>
    cases r with
    | device => exact hinv
    | interface i =>
      simp only [handleStd]
      split <;> exact hinv
    | endpoint e =>
      simp only [handleStd]
      cases d.findEp e <;> exact hinv
  | setFeature r =>
    cases r with
    | device => exact hinv
    | interface i => exact hinv
    | endpoint e =>
      simp only [handleStd]
      split <;> exact hinv
  | clearFeature r =>
    cases r with
    | device => exact hinv
    | interface i => exact hinv
    | endpoint e =>
      simp only [handleStd]
      split <;> exact hinv
  | setAddress a =>
    simp only [handleStd]
    split
    · exact hinv
    · rename_i hstate
      have hc0 : d.config = 0 := hinv.mpr hstate
      constructor
      · intro _
        split <;> simp
      · intro _
        exact hc0
  | getDescriptor t =>
    simp only [handleStd]
    split <;> exact hinv
  | setDescriptor t => exact hinv
  | getConfiguration => exact hinv
  | setConfiguration c' =>
    simp only [handleStd]
    split
    · constructor
      · intro _
        split
        · simp
        · rename_i hns
          exact hns
      · intro _
        rfl
    · split
      · rename_i hc0' hmem
        have hne : c' ≠ 0 := fun h => hwf (h ▸ hmem)
        exact ⟨fun hcc => (hne hcc).elim, fun hns => (hns rfl).elim⟩
      · exact hinv
  | getInterface i =>
    simp only [handleStd]
    split <;> exact hinv
  | setInterface i a =>
    simp only [handleStd]
    split <;> exact hinv

/-- Claim C3: SetConfiguration(c) for a declared c followed by
GetConfiguration returns c; SetConfiguration(0) followed by
GetConfiguration returns 0; GetConfiguration returns 0 exactly while
the device is not Configured, an invariant preserved by every standard
request; and a device that pre-selects default configuration 1 during
initialization reports configuration 1 with no host-issued
SetConfiguration. -/
theorem getConfiguration_roundtrip (decl : DeviceDecl) (d : Device) (c : Nat)
    (hwf : decl.wf) (hc : c ∈ decl.configs) :
    (handleStd decl (handleStd decl d (StdRequest.setConfiguration c)).1
        StdRequest.getConfiguration).2 = CtrlResult.ok [c] ∧
    (handleStd decl (handleStd decl d (StdRequest.setConfiguration 0)).1
        StdRequest.getConfiguration).2 = CtrlResult.ok [0] ∧
    (configInvariant d →
      ((handleStd decl d StdRequest.getConfiguration).2 = CtrlResult.ok [0] ↔
        d.state ≠ DeviceState.Configured)) ∧
    (∀ req, configInvariant d → configInvariant (handleStd decl d req).1) ∧
    (initUSBDevice true).state = DeviceState.Configured ∧
    (handleStd decl (initUSBDevice true) StdRequest.getConfiguration).2 =
      CtrlResult.ok [1] := by
  refine ⟨?_, ?_, ?_, ?_, rfl, rfl⟩
  · by_cases hc0 : c = 0
    · subst hc0; simp [handleStd]
    · simp [handleStd, hc0, hc]
  · simp [handleStd]
  · intro hinv
    simpa [handleStd] using hinv
  · intro req hinv
    exact handleStd_fst_configInvariant decl hwf d req hinv

/-- Closed instance of C3: a single declared configuration 1 on a
freshly constructed device satisfies all conjuncts. -/
theorem getConfiguration_roundtrip_witness :
    let decl : DeviceDecl :=
      ⟨[1], [0], fun _ => [0], fun _ => [0x81], fun _ _ => [0x81], false⟩
    let d := initUSBDevice false
    (decl.wf ∧ 1 ∈ decl.configs) ∧
    (handleStd decl (handleStd decl d (StdRequest.setConfiguration 1)).1
        StdRequest.getConfiguration).2 = CtrlResult.ok [1] :=
  ⟨⟨show (0 : Nat) ∉ ([1] : List Nat) by decide, by decide⟩,
    (getConfiguration_roundtrip
      ⟨[1], [0], fun _ => [0], fun _ => [0x81], fun _ _ => [0x81], false⟩
      (initUSBDevice false) 1 (show (0 : Nat) ∉ ([1] : List Nat) by decide)
      (by decide)).1⟩

/-- Claim C5: SetInterface(i, a) for a declared alt-setting a succeeds
and a subsequent GetInterface(i) returns a; for an undeclared
alt-setting it stalls, leaves the device (and hence the previously
selected alt-setting of interface i) unchanged, and GetInterface still
returns the previous alt-setting. -/
theorem setInterface_getInterface (decl : DeviceDecl) (d : Device) (i a : Nat)
    (hconf : d.state = DeviceState.Configured) (hi : i ∈ decl.interfaces) :
    (a ∈ decl.altsOf i →
      (handleStd decl d (StdRequest.setInterface i a)).2 = CtrlResult.ok [] ∧
      (handleStd decl (handleStd decl d (StdRequest.setInterface i a)).1
          (StdRequest.getInterface i)).2 = CtrlResult.ok [a]) ∧
    (a ∉ decl.altsOf i →
      (handleStd decl d (StdRequest.setInterface i a)).2 = CtrlResult.stall ∧
      (handleStd decl d (StdRequest.setInterface i a)).1 = d ∧
      (handleStd decl (handleStd decl d (StdRequest.setInterface i a)).1
          (StdRequest.getInterface i)).2 = CtrlResult.ok [d.altSetting i]) := by
  constructor
  · intro ha
    constructor
    · simp [handleStd, hconf, hi, ha]
    · simp [handleStd, hconf, hi, ha]
  · intro ha
    refine ⟨?_, ?_, ?_⟩ <;> simp [handleStd, hconf, hi, ha]

/-- Closed instance of C5: interface 0 with declared alt-settings 0 and
1 on a configured device; selecting alt-setting 1 succeeds and reads
back as 1. -/
theorem setInterface_getInterface_witness :
    let decl : DeviceDecl :=
      ⟨[1], [0], fun _ => [0, 1], fun _ => [], fun _ _ => [0x81], false⟩
    let d := initUSBDevice true
    (d.state = DeviceState.Configured ∧ 0 ∈ decl.interfaces ∧
      1 ∈ decl.altsOf 0) ∧
    ((handleStd decl d (StdRequest.setInterface 0 1)).2 = CtrlResult.ok [] ∧
     (handleStd decl (handleStd decl d (StdRequest.setInterface 0 1)).1
         (StdRequest.getInterface 0)).2 = CtrlResult.ok [1]) :=
  ⟨⟨rfl, by decide, by decide⟩,
    (setInterface_getInterface
      ⟨[1], [0], fun _ => [0, 1], fun _ => [], fun _ _ => [0x81], false⟩
      (initUSBDevice true) 0 1 rfl (by decide)).1 (by decide)⟩

lemma ep0Only_unhalted (d : Device) : ∀ e ∈ d.ep0Only, e.halted = false := by
  intro e he
  simp only [Device.ep0Only, List.mem_map] at he
  obtain ⟨a, _, rfl⟩ := he
  rfl

lemma setConfiguration_all_unhalted (decl : DeviceDecl) (d : Device) (c : Nat)
    (hc : c ∈ decl.configs) :
    ∀ e ∈ ((handleStd decl d (StdRequest.setConfiguration c)).1).endpoints,
      e.halted = false := by
  intro e he
  simp only [handleStd] at he
  by_cases h0 : c = 0
  · rw [if_pos h0] at he
    exact ep0Only_unhalted d e he
  · rw [if_neg h0, if_pos hc] at he
    rcases List.mem_append.mp he with h | h
    · exact ep0Only_unhalted d e h
    · obtain ⟨n, _, rfl⟩ := List.mem_map.mp h
      rfl

lemma setInterface_preserves_all_unhalted (decl : DeviceDecl) (d : Device)
    (i a : Nat) (h : ∀ e ∈ d.endpoints, e.halted = false) :
    ∀ e ∈ ((handleStd decl d (StdRequest.setInterface i a)).1).endpoints,
      e.halted = false := by
  intro e he
  simp only [handleStd] at he
  split at he
  · rcases List.mem_append.mp he with h1 | h1
    · exact h e (List.mem_of_mem_filter h1)
    · obtain ⟨n, _, rfl⟩ := List.mem_map.mp h1
      rfl
  · exact h e he

lemma getStatus_endpoint_unhalted (decl : DeviceDecl) (d : Device)
    (h : ∀ e ∈ d.endpoints, e.halted = false) (e : Endpoint)
    (he : e ∈ d.endpoints) :
    (handleStd decl d (StdRequest.getStatus (Recipient.endpoint e.num))).2 =
      CtrlResult.ok [0] := by
  have hsome : (d.findEp e.num).isSome := by
    rw [Device.findEp, List.find?_isSome]
    exact ⟨e, he, by simp⟩
  obtain ⟨ep, hep⟩ := Option.isSome_iff_exists.mp hsome
  have hmem : ep ∈ d.endpoints := List.mem_of_find?_eq_some hep
  have hfalse : ep.halted = false := h ep hmem
  simp only [handleStd]
  rw [hep]
  simp [hfalse]

lemma find?_setHalt (l : List Endpoint) (e : Nat) (b : Bool) :
    (l.map (fun ep => if ep.num == e then { ep with halted := b } else ep)).find?
        (fun ep => ep.num == e) =
      (l.find? (fun ep => ep.num == e)).map
        (fun ep => { ep with halted := b }) := by
  induction l with
  | nil => rfl
  | cons hd tl ih =>
    simp only [List.map_cons]
    by_cases h : (hd.num == e) = true
    · have h2 : ((⟨hd.num, b⟩ : Endpoint).num == e) = true := h
      rw [if_pos h,
        @List.find?_cons_of_pos Endpoint (fun ep : Endpoint => ep.num == e)
          ⟨hd.num, b⟩ _ h2,
        @List.find?_cons_of_pos Endpoint (fun ep : Endpoint => ep.num == e)
          hd tl h]
      rfl
    · rw [if_neg h,
        @List.find?_cons_of_neg Endpoint (fun ep : Endpoint => ep.num == e)
          hd _ h,
        @List.find?_cons_of_neg Endpoint (fun ep : Endpoint => ep.num == e)
          hd tl h, ih]

lemma findEp_setHalt (d : Device) (e : Nat) (b : Bool) :
    (d.setHalt e b).findEp e =
      (d.findEp e).map (fun ep => { ep with halted := b }) :=
  find?_setHalt d.endpoints e b

/-- Claim C4: after a successful configuration selection every live
endpoint reports status 0, and likewise after a subsequent interface
selection; for a present endpoint, SetFeature(ENDPOINT_HALT) then
GetStatus reports halted and ClearFeature restores status 0; interface
status, whenever GetStatus on an interface succeeds, is always 0. -/
theorem endpoint_status_reflects_halt (decl : DeviceDecl) (d : Device)
    (c i a : Nat) (hc : c ∈ decl.configs) :
    (∀ e ∈ ((handleStd decl d (StdRequest.setConfiguration c)).1).endpoints,
      (handleStd decl (handleStd decl d (StdRequest.setConfiguration c)).1
        (StdRequest.getStatus (Recipient.endpoint e.num))).2 =
          CtrlResult.ok [0]) ∧
    (∀ e ∈ ((handleStd decl
        (handleStd decl d (StdRequest.setConfiguration c)).1
        (StdRequest.setInterface i a)).1).endpoints,
      (handleStd decl (handleStd decl
          (handleStd decl d (StdRequest.setConfiguration c)).1
          (StdRequest.setInterface i a)).1
        (StdRequest.getStatus (Recipient.endpoint e.num))).2 =
          CtrlResult.ok [0]) ∧
    (∀ (d' : Device) (n : Nat), (d'.findEp n).isSome →
      (handleStd decl (handleStd decl d' (StdRequest.setFeature
          (Recipient.endpoint n))).1
        (StdRequest.getStatus (Recipient.endpoint n))).2 = CtrlResult.ok [1] ∧
      (handleStd decl (handleStd decl d' (StdRequest.clearFeature
          (Recipient.endpoint n))).1
        (StdRequest.getStatus (Recipient.endpoint n))).2 = CtrlResult.ok [0]) ∧
    (∀ (d' : Device) (j : Nat),
      (handleStd decl d' (StdRequest.getStatus (Recipient.interface j))).2 =
          CtrlResult.stall ∨
      (handleStd decl d' (StdRequest.getStatus (Recipient.interface j))).2 =
          CtrlResult.ok [0]) := by
  refine ⟨?_, ?_, ?_, ?_⟩
  · intro e he
    exact getStatus_endpoint_unhalted decl _
      (setConfiguration_all_unhalted decl d c hc) e he
  · intro e he
    exact getStatus_endpoint_unhalted decl _
      (setInterface_preserves_all_unhalted decl _ i a
        (setConfiguration_all_unhalted decl d c hc)) e he
  · intro d' n hsome
    obtain ⟨ep, hep⟩ := Option.isSome_iff_exists.mp hsome
    constructor
    · have hset : (handleStd decl d' (StdRequest.setFeature
          (Recipient.endpoint n))).1 = d'.setHalt n true := by
        simp only [handleStd, hsome, if_pos]
      rw [hset]
      have hfind : (d'.setHalt n true).findEp n =
          some { ep with halted := true } := by
        rw [findEp_setHalt, hep]
        rfl
      simp only [handleStd]
      rw [hfind]
      rfl
    · have hset : (handleStd decl d' (StdRequest.clearFeature
          (Recipient.endpoint n))).1 = d'.setHalt n false := by
        simp only [handleStd, hsome, if_pos]
      rw [hset]
      have hfind : (d'.setHalt n false).findEp n =
          some { ep with halted := false } := by
        rw [findEp_setHalt, hep]
        rfl
      simp only [handleStd]
      rw [hfind]
      rfl
  · intro d' j
    simp only [handleStd]
    split
    · exact Or.inr rfl
    · exact Or.inl rfl

/-- Closed instance of C4: configuration 1 enabling endpoints 0x81 and
0x02, interface 0 alt 0; all status reads after selection are 0 and the
halt feature round-trips on endpoint 0x81. -/
theorem endpoint_status_reflects_halt_witness :
    let decl : DeviceDecl :=
      ⟨[1], [0], fun _ => [0], fun _ => [0x81, 0x02], fun _ _ => [0x81], false⟩
    let d := initUSBDevice false
    let d1 := (handleStd decl d (StdRequest.setConfiguration 1)).1
    (1 ∈ decl.configs ∧ (d1.findEp 0x81).isSome) ∧
    ((handleStd decl (handleStd decl d1 (StdRequest.setFeature
        (Recipient.endpoint 0x81))).1
      (StdRequest.getStatus (Recipient.endpoint 0x81))).2 =
        CtrlResult.ok [1]) :=
  ⟨⟨by decide, by decide⟩,
    ((endpoint_status_reflects_halt
      ⟨[1], [0], fun _ => [0], fun _ => [0x81, 0x02], fun _ _ => [0x81], false⟩
      (initUSBDevice false) 1 0 0 (by decide)).2.2.1
      (handleStd
        ⟨[1], [0], fun _ => [0], fun _ => [0x81, 0x02], fun _ _ => [0x81], false⟩
        (initUSBDevice false) (StdRequest.setConfiguration 1)).1
      0x81 (by decide)).1⟩

/-- Modelled from the spec: the endpoint-0 traffic-handling mode of the
physical transceiver (USBPhy.h defined behavior lines 41-43 and the
ep0_stall documentation; the concrete USBPhy implementations are not
among the provided sources): after a SETUP packet endpoint 0 naks all
non-setup traffic until one of ep0_read, ep0_write or ep0_stall is
called, and a stall persists until the next SETUP packet. -/
inductive Ep0Mode where
  | nakAll
  | readArmed
  | writeArmed
  | stalled
  deriving DecidableEq, Repr

/-- The handshake endpoint 0 gives to non-setup traffic in each mode. -/
inductive Ep0Reply where
  | nak
  | stall
  | accept
  deriving DecidableEq, Repr

/-- Modelled from the spec: the reply of endpoint 0 to a non-setup
transaction: nak while no transfer is armed, protocol stall while
stalled, and acceptance once a read or write is armed. -/
def ep0NonSetupReply : Ep0Mode → Ep0Reply
  | Ep0Mode.nakAll => Ep0Reply.nak
  | Ep0Mode.readArmed => Ep0Reply.accept
  | Ep0Mode.writeArmed => Ep0Reply.accept
  | Ep0Mode.stalled => Ep0Reply.stall

/-- Modelled from the spec: reception of a SETUP packet; any endpoint-0
stall is cleared automatically and the endpoint naks non-setup traffic
until read/write/stall is issued. -/
def ep0OnSetup (_ : Ep0Mode) : Ep0Mode := Ep0Mode.nakAll

/-- Modelled from the spec: non-setup traffic on endpoint 0 does not
change its mode; it is answered per `ep0NonSetupReply`. -/
def ep0OnTraffic (m : Ep0Mode) : Ep0Mode := m

/-- Modelled from the spec: ep0_read arms a read on endpoint 0; while
stalled, endpoint 0 stalls all IN and OUT packets until a SETUP packet
is received, so the stall persists. -/
def ep0_read (m : Ep0Mode) : Ep0Mode :=
  if m = Ep0Mode.stalled then m else Ep0Mode.readArmed

/-- Modelled from the spec: ep0_write arms a write on endpoint 0; while
stalled, the stall persists until a SETUP packet is received. -/
def ep0_write (m : Ep0Mode) : Ep0Mode :=
  if m = Ep0Mode.stalled then m else Ep0Mode.writeArmed

/-- Modelled from the spec: ep0_stall issues a protocol stall on
endpoint 0. -/
def ep0_stall (_ : Ep0Mode) : Ep0Mode := Ep0Mode.stalled

/-- Claim C6: after a SETUP packet endpoint 0 naks all non-setup
traffic, and keeps doing so under further traffic until ep0_read,
ep0_write or ep0_stall ends the nak phase; a stall on endpoint 0 is
cleared by the arrival of a SETUP packet and by nothing else: neither
traffic nor any of the application operations ep0_read, ep0_write,
ep0_stall take the endpoint out of the stalled mode. -/
theorem ep0_naks_until_armed_stall_autoclear (m : Ep0Mode) :
    (ep0OnSetup m = Ep0Mode.nakAll ∧
      ep0NonSetupReply (ep0OnSetup m) = Ep0Reply.nak) ∧
    (ep0OnTraffic Ep0Mode.nakAll = Ep0Mode.nakAll ∧
      ep0_read Ep0Mode.nakAll = Ep0Mode.readArmed ∧
      ep0_write Ep0Mode.nakAll = Ep0Mode.writeArmed ∧
      ep0_stall Ep0Mode.nakAll = Ep0Mode.stalled) ∧
    (ep0OnSetup Ep0Mode.stalled ≠ Ep0Mode.stalled ∧
      ep0NonSetupReply (ep0OnSetup Ep0Mode.stalled) ≠ Ep0Reply.stall) ∧
    (ep0OnTraffic Ep0Mode.stalled = Ep0Mode.stalled ∧
      ep0_read Ep0Mode.stalled = Ep0Mode.stalled ∧
      ep0_write Ep0Mode.stalled = Ep0Mode.stalled ∧
      ep0_stall Ep0Mode.stalled = Ep0Mode.stalled) := by
  refine ⟨⟨rfl, rfl⟩, ⟨rfl, rfl, rfl, rfl⟩, ⟨?_, ?_⟩, ⟨rfl, rfl, rfl, rfl⟩⟩ <;>
    decide

/-- Modelled from the spec: the endpoint completion conditions pending
at the start of one process() pass (§5; USBPhy.h notes that IN
endpoints should be handled before OUT endpoints if both are
pending). -/
structure PendingEvents where
  inEps : List Nat
  outEps : List Nat
  deriving DecidableEq, Repr

/-- An endpoint completion event serviced by process(). -/
inductive EpEvent where
  | inDone (ep : Nat)
  | outDone (ep : Nat)
  deriving DecidableEq, Repr

/-- Modelled from the spec: the order in which one process() pass
services the pending completions: all IN completions, then all OUT
completions (§5 ordering guarantee; the USBPhy implementation is not
among the provided sources). -/
def processPass (p : PendingEvents) : List EpEvent :=
  p.inEps.map EpEvent.inDone ++ p.outEps.map EpEvent.outDone

/-- Claim C7: in every processing pass in which both an IN-ready and an
OUT-ready condition are pending, every IN completion is serviced at an
earlier position of the pass than every OUT completion. -/
theorem in_serviced_before_out (p : PendingEvents) (x y i j : Nat)
    (hi : (processPass p)[i]? = some (EpEvent.inDone x))
    (hj : (processPass p)[j]? = some (EpEvent.outDone y)) :
    i < j := by
  have hilt : i < (p.inEps.map EpEvent.inDone).length := by
    by_contra hge
    rw [processPass, List.getElem?_append_right (by omega)] at hi
    rw [List.getElem?_map] at hi
    rcases hval : p.outEps[i - (p.inEps.map EpEvent.inDone).length]? with _ | v
    · rw [hval] at hi
      exact Option.noConfusion hi
    · rw [hval] at hi
      simp only [Option.map_some'] at hi
      exact EpEvent.noConfusion (Option.some.inj hi)
  have hjge : (p.inEps.map EpEvent.inDone).length ≤ j := by
    by_contra hlt
    rw [processPass, List.getElem?_append] at hj
    rw [if_pos (by omega), List.getElem?_map] at hj
    rcases hval : p.inEps[j]? with _ | v
    · rw [hval] at hj
      exact Option.noConfusion hj
    · rw [hval] at hj
      simp only [Option.map_some'] at hj
      exact EpEvent.noConfusion (Option.some.inj hj)
  omega

/-- Closed instance of C7: with IN endpoint 1 and OUT endpoint 2 both
pending, the IN completion sits at position 0 and the OUT completion at
position 1 of the pass, and the theorem yields 0 < 1. -/
theorem in_serviced_before_out_witness :
    ((processPass ⟨[1], [2]⟩)[0]? = some (EpEvent.inDone 1) ∧
      (processPass ⟨[1], [2]⟩)[1]? = some (EpEvent.outDone 2)) ∧
    (0 : Nat) < 1 :=
  ⟨⟨rfl, rfl⟩, in_serviced_before_out ⟨[1], [2]⟩ 1 2 0 1 rfl rfl⟩

/-- An endpoint as configured at the transceiver: endpoint address and
the max packet size passed to endpoint_add (from platform/USBPhy.h). -/
structure PhyEndpoint where
  num : Nat
  maxPacket : Nat
  deriving DecidableEq, Repr

/-- Shallow embedding of the USBPhy::endpoint_read contract
(platform/USBPhy.h): starts a read into a buffer of `size` bytes on the
given endpoint.  The documentation demands that `size` "must be at
least the max packet size for this endpoint", and calling any
endpoint_* function on endpoint 0 is undefined behavior; a call outside
the contract is undefined (`none`), a call within it starts the read
(`some true`). -/
def endpoint_read (ep : PhyEndpoint) (size : Nat) : Option Bool :=
  if ep.num ≠ 0 ∧ ep.maxPacket ≤ size then some true else none

/-- Claim C9: every defined call of endpoint_read on a non-zero
endpoint supplies a buffer of at least the endpoint's max packet size —
the buffer-size lower bound is a precondition of the transceiver
contract — and a call on a non-zero endpoint meeting the bound is
within the contract. -/
theorem endpoint_read_requires_max_packet (ep : PhyEndpoint) (size : Nat) :
    ((endpoint_read ep size).isSome → ep.maxPacket ≤ size) ∧
    (ep.num ≠ 0 → ep.maxPacket ≤ size → (endpoint_read ep size).isSome) := by
  constructor
  · intro hsome
    by_contra hlt
    rw [endpoint_read, if_neg (fun h => hlt h.2)] at hsome
    exact Bool.noConfusion hsome
  · intro hnz hle
    rw [endpoint_read, if_pos ⟨hnz, hle⟩]
    rfl

/-- Closed instance of C9: a bulk endpoint 0x81 with max packet 64 and
a 64-byte buffer is within the contract. -/
theorem endpoint_read_requires_max_packet_witness :
    (((⟨0x81, 64⟩ : PhyEndpoint).num ≠ 0) ∧ (64 : Nat) ≤ 64) ∧
    (endpoint_read ⟨0x81, 64⟩ 64).isSome :=
  ⟨⟨by decide, by decide⟩,
    (endpoint_read_requires_max_packet ⟨0x81, 64⟩ 64).2 (by decide) (by decide)⟩

/-- From TESTS/usb_device/basic/main.cpp: the bus-idle delay inserted
between disconnect() and connect(), in microseconds ("To be on the safe
side I would recommend a 1ms delay, so the host controller has an
entire USB frame to detect the disconnect"). -/
def MIN_DISCONNECT_TIME_US : Nat := 1000

/-- From the comment in TESTS/usb_device/basic/main.cpp: "At a minimum
there should be a 200us delay between disconnect and connect", below
which the host can drop the reset event. -/
def minHardwareDisconnectTimeUs : Nat := 200

/-- One full-speed USB frame lasts 1 ms = 1000 microseconds. -/
def usbFrameTimeUs : Nat := 1000

/-- From TESTS/usb_device/basic/main.cpp device_soft_reconnection_test:
the number of disconnect/reconnect loop iterations. -/
def reconnect_try_count : Nat := 3

/-- From TESTS/usb_device/basic/main.cpp device_soft_reconnection_test:
the bus-idle delay of each disconnect/connect cycle — one per loop
iteration plus three back-to-back cycles, each waiting
MIN_DISCONNECT_TIME_US. -/
def softReconnectionDelaysUs : List Nat :=
  List.replicate reconnect_try_count MIN_DISCONNECT_TIME_US ++
    List.replicate 3 MIN_DISCONNECT_TIME_US

/-- From TESTS/usb_device/basic/main.cpp
repeated_construction_destruction_test: the delays separating the six
construction/teardown blocks, each waiting MIN_DISCONNECT_TIME_US. -/
def constructionTeardownDelaysUs : List Nat :=
  List.replicate 5 MIN_DISCONNECT_TIME_US

/-- Claim C10: every disconnect/connect cycle of the reconnection and
construction/teardown tests waits exactly MIN_DISCONNECT_TIME_US = 1000
microseconds, which is at least the 200 microsecond hardware minimum
and equals one full USB frame. -/
theorem min_disconnect_time_exact :
    MIN_DISCONNECT_TIME_US = 1000 ∧
    minHardwareDisconnectTimeUs = 200 ∧
    minHardwareDisconnectTimeUs ≤ MIN_DISCONNECT_TIME_US ∧
    MIN_DISCONNECT_TIME_US = usbFrameTimeUs ∧
    (softReconnectionDelaysUs ++ constructionTeardownDelaysUs).all
      (fun t => t == MIN_DISCONNECT_TIME_US) = true := by
  decide

end USBCore
